import Mathlib

set_option maxRecDepth 100000

/-!
# Verification of the beartype wrapper-synthesis and hint-reduction code

This development shallowly embeds the parts of the `beartype` repository that
the specification's claims are about:

* `beartype/_decor/_code/_pep/_pepsnip.py` — the code-snippet constants used to
  assemble type-checking wrapper functions (parameter localization, return
  localization, plain-class checks);
* `beartype/_decor/_code/_pep/pepcode.py` — `pep_code_check_param` and
  `pep_code_check_return`, which stitch the snippets together;
* `beartype/_util/hint/pep/proposal/utilpep589.py` — `is_hint_pep589`;
* `beartype/_util/hint/pep/mod/utilmodnumpy.py` — `reduce_hint_numpy_ndarray`.

Python triple-quoted snippet templates are embedded as Lean `String`s with the
`str.format` substitutions of the source already applied (the source applies
`.format(pith_root_name=PEP_CODE_PITH_ROOT_EXPR)` at module load time, and
`.format(arg_name=..., arg_index=...)` inside `pep_code_check_param`); the
doubled braces `{{...}}` of the templates therefore appear here as single
literal braces, and the per-parameter `format` step is embedded as a Lean
function from the format arguments to the formatted snippet.  Stateful or
foreign behaviour (Python `repr`, NumPy dtype coercion, attribute lookup) is
embedded as explicit environment records of total functions, with `Option` or
`Except` for fallible operations.
-/

namespace Beartype

/-! ## Generic string/substring utilities -/

/-- Number of occurrences of the character list `pat` in a character list,
counting one occurrence at every position where `pat` is a prefix of the
remaining suffix (for nonempty `pat` this is the usual substring count). -/
def countOcc (pat : List Char) : List Char → Nat
  | [] => 0
  | c :: rest => (if pat.isPrefixOf (c :: rest) then 1 else 0) + countOcc pat rest

/-- Boolean test: `true` when the character list `pat` occurs somewhere in `l`. -/
def hasSubList (pat : List Char) : List Char → Bool
  | [] => pat.isEmpty
  | c :: rest => pat.isPrefixOf (c :: rest) || hasSubList pat rest

/-- Boolean test: `true` when string `pat` occurs as a contiguous substring of `s`. -/
def strHasSub (pat s : String) : Bool := hasSubList pat.data s.data

/-- Proposition: string `p` is a contiguous substring of `s`. -/
def strInfix (p s : String) : Prop := p.data <:+: s.data

/-- No nonempty suffix of `l` that is shorter than `pat` is a prefix of `pat`:
occurrences of `pat` in `l ++ m` therefore cannot straddle the boundary,
whatever `m` is.  Decidable by evaluation for concrete `l` and `pat`. -/
def noStraddle (pat l : List Char) : Bool :=
  (List.range (l.length + 1)).all fun i =>
    (l.drop i).isEmpty || decide (pat.length ≤ (l.drop i).length) ||
      !((l.drop i).isPrefixOf pat)

theorem countOcc_nil (pat : List Char) : countOcc pat [] = 0 := rfl

/-- Prefix tests ignore list content beyond the pattern length. -/
theorem isPrefixOf_append_of_le_length (pat s m : List Char)
    (h : pat.length ≤ s.length) :
    pat.isPrefixOf (s ++ m) = pat.isPrefixOf s := by
  cases hx : pat.isPrefixOf (s ++ m) <;> cases hy : pat.isPrefixOf s <;> try rfl
  · -- the prefix test succeeds on `s` but failed on `s ++ m`: impossible
    exfalso
    rw [ List.isPrefixOf_iff_prefix] at hy
    have : pat <+: s ++ m := hy.trans (List.prefix_append s m)
    rw [← List.isPrefixOf_iff_prefix] at this
    rw [this] at hx
    exact absurd hx (by simp)
  · -- the prefix test succeeds on `s ++ m`: it must already succeed on `s`
    exfalso
    rw [ List.isPrefixOf_iff_prefix] at hx
    rw [List.prefix_iff_eq_take] at hx
    rw [List.take_append_eq_append_take] at hx
    rw [Nat.sub_eq_zero_of_le h] at hx
    simp only [List.take_zero, List.append_nil] at hx
    have : pat <+: s := List.prefix_iff_eq_take.mpr hx
    rw [← List.isPrefixOf_iff_prefix] at this
    rw [this] at hy
    exact absurd hy (by simp)

/-- Core decomposition: counting occurrences distributes over append provided
no occurrence can straddle the boundary (stated via the suffixes of `l`). -/
theorem countOcc_append (pat l m : List Char)
    (H : ∀ s, s <:+ l → s ≠ [] → s.length < pat.length →
      pat.isPrefixOf (s ++ m) = false) :
    countOcc pat (l ++ m) = countOcc pat l + countOcc pat m := by
  induction l with
  | nil => simp [countOcc]
  | cons c rest ih =>
    have hrest : ∀ s, s <:+ rest → s ≠ [] → s.length < pat.length →
        pat.isPrefixOf (s ++ m) = false := by
      intro s hs hne hlen
      exact H s (hs.trans (List.suffix_cons c rest)) hne hlen
    have hhead : pat.isPrefixOf ((c :: rest) ++ m) = pat.isPrefixOf (c :: rest) := by
      rcases Nat.lt_or_ge (c :: rest).length pat.length with hlt | hge
      · have h1 : pat.isPrefixOf ((c :: rest) ++ m) = false :=
          H (c :: rest) (List.suffix_refl _) (by simp) hlt
        have h2 : pat.isPrefixOf (c :: rest) = false := by
          cases hy : pat.isPrefixOf (c :: rest) <;> try rfl
          rw [ List.isPrefixOf_iff_prefix] at hy
          exact absurd hy.length_le (Nat.not_le_of_lt hlt)
        rw [h1, h2]
      · exact isPrefixOf_append_of_le_length pat (c :: rest) m hge
    calc countOcc pat ((c :: rest) ++ m)
        = (if pat.isPrefixOf ((c :: rest) ++ m) then 1 else 0) +
            countOcc pat (rest ++ m) := rfl
      _ = (if pat.isPrefixOf (c :: rest) then 1 else 0) +
            (countOcc pat rest + countOcc pat m) := by rw [hhead, ih hrest]
      _ = countOcc pat (c :: rest) + countOcc pat m := by
            simp [countOcc, Nat.add_assoc]

/-- When `noStraddle pat l` holds (a decidable check on the concrete `l`),
occurrence counting splits over any continuation `m`. -/
theorem countOcc_append_of_noStraddle (pat l m : List Char)
    (h : noStraddle pat l = true) :
    countOcc pat (l ++ m) = countOcc pat l + countOcc pat m := by
  apply countOcc_append
  intro s hs hne hlen
  have hdrop : s = l.drop (l.length - s.length) := List.suffix_iff_eq_drop.mp hs
  have hmem : l.length - s.length ∈ List.range (l.length + 1) := by
    simp only [List.mem_range]
    omega
  have hall := (List.all_eq_true.mp h) _ hmem
  simp only [Bool.or_eq_true, Bool.not_eq_true', decide_eq_true_eq,
    List.isEmpty_eq_true] at hall
  have h1 : (s = [] ∨ pat.length ≤ s.length) ∨ s.isPrefixOf pat = false := by
    rw [hdrop]
    exact hall
  rcases h1 with (h1 | h1) | h1
  · exact absurd h1 hne
  · omega
  · cases hx : pat.isPrefixOf (s ++ m) <;> try rfl
    exfalso
    rw [ List.isPrefixOf_iff_prefix] at hx
    have hsp : s <+: pat := by
      rcases List.prefix_or_prefix_of_prefix (List.prefix_append s m) hx with h2 | h2
      · exact h2
      · exact absurd h2.length_le (by omega)
    rw [← List.isPrefixOf_iff_prefix] at hsp
    rw [hsp] at h1
    exact absurd h1 (by simp)

/-- If the first character of `m` never occurs in `pat`, occurrences of `pat`
in `l ++ m` cannot straddle the boundary, for any `l`. -/
theorem countOcc_append_of_head_notMem (pat l m : List Char) (c : Char)
    (hm : m.head? = some c) (hc : c ∉ pat) :
    countOcc pat (l ++ m) = countOcc pat l + countOcc pat m := by
  apply countOcc_append
  intro s hs hne hlen
  cases hx : pat.isPrefixOf (s ++ m) <;> try rfl
  exfalso
  rw [ List.isPrefixOf_iff_prefix] at hx
  have hsp : s <+: pat := by
    rcases List.prefix_or_prefix_of_prefix (List.prefix_append s m) hx with h | h
    · exact h
    · exact absurd h.length_le (by omega)
  obtain ⟨t, ht⟩ := hsp
  have htne : t ≠ [] := by
    intro h0
    rw [h0, List.append_nil] at ht
    have := congrArg List.length ht
    omega
  have htm : t <+: m := by
    have : s ++ t <+: s ++ m := by rw [ht]; exact hx
    exact (List.prefix_append_right_inj s).mp this
  cases t with
  | nil => exact htne rfl
  | cons tc t' =>
    cases m with
    | nil => simp at hm
    | cons mc m' =>
      have : tc = mc ∧ t' <+: m' := List.cons_prefix_cons.mp htm
      have hcm : mc = c := by simpa using hm
      apply hc
      rw [← ht]
      rw [← hcm, ← this.1]
      exact List.mem_append_right s (List.mem_cons_self tc t')

/-- Unfolding append on the character data of strings. -/
@[simp]
theorem data_append (a b : String) : (a ++ b).data = a.data ++ b.data := rfl

/-- A string is an infix of any enclosing concatenation. -/
theorem strInfix_of_append (a p b : String) : strInfix p (a ++ p ++ b) := by
  unfold strInfix
  show p.data <:+: (a ++ p ++ b).data
  have : (a ++ p ++ b).data = a.data ++ p.data ++ b.data := rfl
  rw [this]
  exact List.infix_append a.data p.data b.data

/-! ## Embedding of `beartype/_decor/_code/_pep/_pepsnip.py`

The Python module defines triple-quoted snippet templates and applies
`.format(pith_root_name=PEP_CODE_PITH_ROOT_EXPR)` (and, for the plain-class
check, also `pith_root_name=PEP_CODE_PITH_ROOT_NAME_PLACEHOLDER` /
`pith_root_expr=PEP_CODE_PITH_ROOT_EXPR`) at module load time.  The constants
below are those load-time results; the remaining `{arg_name!r}` / `{arg_index}`
fields, substituted by `str.format` inside `pep_code_check_param`, are embedded
as Lean function parameters.  Doubled braces `{{...}}` of the source templates
are single literal braces here. -/

/-- Constant `PEP_CODE_PITH_ROOT_EXPR`: name of the local variable providing the root
pith (the value of the current parameter or return value being checked). -/
def PEP_CODE_PITH_ROOT_EXPR : String := "__beartype_pith_root"

/-- Constant `PEP_CODE_PITH_ROOT_NAME_PLACEHOLDER`: magic unformattable placeholder
substring later replaced by the name of the current parameter or `return`. -/
def PEP_CODE_PITH_ROOT_NAME_PLACEHOLDER : String :=
  "PEP_CODE_PITH_ROOT_NAME_PLACEHOLDER"

/-- Python `repr` of an identifier-like string (no quotes or escapes inside),
as produced by the `!r` conversion of `str.format` on parameter names:
the string wrapped in single-quote characters (character code 39). -/
def py_str_repr (s : String) : String :=
  String.singleton (Char.ofNat 39) ++ s ++ String.singleton (Char.ofNat 39)

/-- Snippet `PARAM_KIND_TO_PEP_CODE_GET[Parameter.POSITIONAL_OR_KEYWORD]` with the
`arg_name`/`arg_index` format fields applied (as done by
`pep_code_check_param`).  Note the source template reads
`args[{{arg_index}} if {{arg_index}} < len(args) else ...` — the subscript
bracket opened by `args[` is never closed anywhere in the template. -/
def param_code_get_positional_or_keyword (arg_name : String) (arg_index : Nat) :
    String :=
  "\n    " ++ PEP_CODE_PITH_ROOT_EXPR ++ " = (\n        args[" ++
  toString arg_index ++ " if " ++ toString arg_index ++
  " < len(args) else\n        kwargs.get(" ++ py_str_repr arg_name ++
  ", __beartypistry)\n    )\n    if " ++ PEP_CODE_PITH_ROOT_EXPR ++
  " is not __beartypistry:\n"

/-- Snippet `PARAM_KIND_TO_PEP_CODE_GET[Parameter.KEYWORD_ONLY]` with the `arg_name`
format field applied. -/
def param_code_get_keyword_only (arg_name : String) : String :=
  "\n    " ++ PEP_CODE_PITH_ROOT_EXPR ++ " = kwargs.get(" ++
  py_str_repr arg_name ++ ", __beartypistry)\n    " ++
  "if " ++ PEP_CODE_PITH_ROOT_EXPR ++ " is not __beartypistry:" ++ "\n"

/-- Snippet `PARAM_KIND_TO_PEP_CODE_GET[Parameter.VAR_POSITIONAL]` with the
`arg_index` format field (an `int`, whose `repr` is its decimal digits)
applied. -/
def param_code_get_var_positional (arg_index : Nat) : String :=
  "\n    for " ++ PEP_CODE_PITH_ROOT_EXPR ++ " in args[" ++
  toString arg_index ++ ":]:\n"

/-- Snippet `PEP_CODE_GET_RETURN`: snippet calling the decorated callable and
localizing the value returned by that call. -/
def PEP_CODE_GET_RETURN : String :=
  "\n    " ++ PEP_CODE_PITH_ROOT_EXPR ++
  " = __beartype_func(*args, **kwargs)\n    (\n"

/-- Snippet `PEP_CODE_RETURN_CHECKED`: snippet returning the successfully checked
value from the wrapper function. -/
def PEP_CODE_RETURN_CHECKED : String :=
  "\n    )\n    return " ++ PEP_CODE_PITH_ROOT_EXPR ++ "\n"

/-- Snippet `PEP_CODE_CHECK_NONPEP_TYPE`: snippet type-checking a simple
non-`typing` type, after the module-level `.format` call substituted
`{pith_root_name}` with the placeholder constant and `{pith_root_expr}` with
the root-pith variable name.  The `\x7b...\x7d` fields (`indent_curr`,
`pith_curr_expr`, `hint_curr_expr`) are literal braces still awaiting later
formatting by the hint-tree compiler. -/
def PEP_CODE_CHECK_NONPEP_TYPE : String :=
  "\n\x7bindent_curr\x7dif not isinstance(\x7bpith_curr_expr\x7d, \x7bhint_curr_expr\x7d):\n" ++
  "\x7bindent_curr\x7d    raise __beartype_raise_pep_call_exception(\n" ++
  "\x7bindent_curr\x7d        func=__beartype_func,\n" ++
  "\x7bindent_curr\x7d        param_or_return_name=" ++
  PEP_CODE_PITH_ROOT_NAME_PLACEHOLDER ++ ",\n" ++
  "\x7bindent_curr\x7d        param_or_return_value=" ++
  PEP_CODE_PITH_ROOT_EXPR ++ ",\n" ++
  "\x7bindent_curr\x7d)\n"

/-! ## Embedding of `beartype/_decor/_code/_pep/pepcode.py` -/

/-- The five parameter kinds of Python's `inspect.Parameter`. -/
inductive ParameterKind where
  | POSITIONAL_ONLY
  | POSITIONAL_OR_KEYWORD
  | VAR_POSITIONAL
  | KEYWORD_ONLY
  | VAR_KEYWORD
  deriving DecidableEq, Repr

/-- CPython `repr` of an `inspect._ParameterKind` member, as interpolated by
the `{!r}` field of the unsupported-kind error message. -/
def parameter_kind_repr : ParameterKind → String
  | .POSITIONAL_ONLY => "<_ParameterKind.POSITIONAL_ONLY: 0>"
  | .POSITIONAL_OR_KEYWORD => "<_ParameterKind.POSITIONAL_OR_KEYWORD: 1>"
  | .VAR_POSITIONAL => "<_ParameterKind.VAR_POSITIONAL: 2>"
  | .KEYWORD_ONLY => "<_ParameterKind.KEYWORD_ONLY: 3>"
  | .VAR_KEYWORD => "<_ParameterKind.VAR_KEYWORD: 4>"

/-- Dictionary `PARAM_KIND_TO_PEP_CODE_GET`: dictionary mapping each supported parameter
kind to its localization snippet template; embedded as a partial map to the
template with its format fields abstracted (`arg_name`, `arg_index`).
Unsupported kinds (`POSITIONAL_ONLY`, `VAR_KEYWORD`) are absent, so
`dict.get(kind, None)` yields `none` for them. -/
def PARAM_KIND_TO_PEP_CODE_GET :
    ParameterKind → Option (String → Nat → String)
  | .POSITIONAL_OR_KEYWORD =>
      some fun arg_name arg_index =>
        param_code_get_positional_or_keyword arg_name arg_index
  | .KEYWORD_ONLY => some fun arg_name _ => param_code_get_keyword_only arg_name
  | .VAR_POSITIONAL => some fun _ arg_index => param_code_get_var_positional arg_index
  | _ => none

/-- The exception type raised by `pep_code_check_param` on an unsupported
parameter kind (`beartype.roar.BeartypeDecorHintPepException`). -/
structure BeartypeDecorHintPepException where
  message : String
  deriving DecidableEq, Repr

/-- Function `pep_code_check_param`: Python code type-checking one parameter.

* `hint_label` embeds `label_callable_decorated_param(func, param_name)` —
  the external error-labelling collaborator (not under `src/`), so its result
  is taken as an input.
* `param_code_check` embeds the result of
  `format_text_cached(text=pep_code_check_hint(annotation),
  format_str=repr(name))` — the memoized hint-tree compiler is likewise not
  under `src/`, so its (successful) output enters as an input.

The function first looks up the localization template for the parameter kind;
if the kind is unsupported it raises `BeartypeDecorHintPepException` with the
`'{} kind {!r} unsupported.'` message, otherwise it returns the localization
snippet (with `arg_name`/`arg_index` formatted in) concatenated with the
type-checking fragment. -/
def pep_code_check_param (hint_label : String) (kind : ParameterKind)
    (arg_name : String) (arg_index : Nat) (param_code_check : String) :
    Except BeartypeDecorHintPepException String :=
  match PARAM_KIND_TO_PEP_CODE_GET kind with
  | none =>
      .error ⟨hint_label ++ " kind " ++ parameter_kind_repr kind ++
        " unsupported."⟩
  | some get_arg_code_template =>
      .ok (get_arg_code_template arg_name arg_index ++ param_code_check)

/-- Function `pep_code_check_return`: Python code type-checking the return value.
`return_code_check` embeds the result of
`format_text_cached(text=pep_code_check_hint(return_annotation),
format_str=repr('return'))`, produced by the hint-tree compiler (not under
`src/`).  The function concatenates the call-and-localize snippet, the
checking fragment, and the return snippet. -/
def pep_code_check_return (return_code_check : String) : String :=
  PEP_CODE_GET_RETURN ++ return_code_check ++ PEP_CODE_RETURN_CHECKED

/-! ## Semantics of the keyword-only localization snippet

The `KEYWORD_ONLY` snippet evaluates `kwargs.get(name, __beartypistry)` and
guards the type check with `if pith is not __beartypistry:`.  The
`__beartypistry` singleton is private and "guaranteed to *NEVER* be passed to
any wrapper function" (comment in `_pepsnip.py`), so actual argument values
are always distinct from it; the lookup-or-sentinel step is therefore
embedded as an `Option`-valued lookup, `none` playing the sentinel. -/

/-- Python `kwargs.get(name, __beartypistry)`: the value bound to `name` in
the keyword-argument dictionary (modelled as an association list with
distinct keys, first binding wins as in a `dict`), or the sentinel (`none`)
when `name` is absent. -/
def kwargs_get_or_sentinel {V : Type} (kwargs : List (String × V))
    (name : String) : Option V :=
  kwargs.lookup name

/-- Semantics of the `if {pith_root_name} is not __beartypistry:` guard of the
`KEYWORD_ONLY` snippet: the type check runs exactly when the localized pith is
not the sentinel. -/
def keyword_only_check_runs {V : Type} (kwargs : List (String × V))
    (name : String) : Bool :=
  (kwargs_get_or_sentinel kwargs name).isSome

theorem lookup_isSome_iff_mem_keys {V : Type} (kwargs : List (String × V))
    (n : String) :
    (kwargs.lookup n).isSome = true ↔ n ∈ kwargs.map Prod.fst := by
  induction kwargs with
  | nil => simp [List.lookup]
  | cons p rest ih =>
    obtain ⟨k, v⟩ := p
    by_cases hk : n = k
    · subst hk
      simp [List.lookup]
    · have hbeq : (n == k) = false := beq_false_of_ne hk
      simp [List.lookup, hbeq, hk, ih]

/-! ## Embedding of `beartype/_util/hint/pep/proposal/utilpep589.py`

Python attribute and class introspection (`isinstance(hint, type)`,
`issubclass(hint, dict)`, `hasattr(hint, ...)`) is embedded as an environment
record of boolean observations about otherwise-opaque Python objects, plus
the interpreter-version flag `IS_PYTHON_3_8` imported from `utilpyversion`. -/

/-- Observations that `is_hint_pep589` makes about a Python object.
`issubclass_dict` embeds `issubclass(hint, dict)` and is consulted only after
`isinstance(hint, type)` has succeeded, mirroring the short-circuit `and` of
the source. -/
structure Pep589Env (Obj : Type) where
  is_type : Obj → Bool
  issubclass_dict : Obj → Bool
  has_annotations : Obj → Bool
  has_required_keys : Obj → Bool
  has_optional_keys : Obj → Bool
  IS_PYTHON_3_8 : Bool

/-- Function `is_hint_pep589`: `True` only if the passed object is a
PEP 589 typed dictionary, tested structurally: the object must be a class
subclassing `dict` that defines `__annotations__` and — except under exactly
Python 3.8 — both `__required_keys__` and `__optional_keys__`. -/
def is_hint_pep589 {Obj : Type} (env : Pep589Env Obj) (hint : Obj) : Bool :=
  if !(env.is_type hint && env.issubclass_dict hint) then
    false
  else
    env.has_annotations hint &&
      (env.IS_PYTHON_3_8 ||
        (env.has_required_keys hint && env.has_optional_keys hint))

/-! ## Embedding of `beartype/_util/hint/pep/mod/utilmodnumpy.py`

The reducer works on opaque hint objects through a handful of foreign
operations, embedded as an environment record:

* `sign_is_numpy_array o` — whether `get_hint_pep_sign_or_none(o)` is
  `HintSignNumpyArray`;
* `pep_args o` — `get_hint_pep_args(o)`, the subscript arguments (empty tuple
  when unsubscripted);
* `is_object_hashable o` — the `is_object_hashable` tester;
* `dtype_abc_mem o` — membership of `o` in the frozen set
  `NUMPY_DTYPE_TYPE_ABCS` of NumPy scalar data-type abstract base classes,
  meaningful only for hashable `o` (a Python `frozenset` membership test
  hashes its argument and raises `TypeError` on unhashable arguments, which
  `frozenset_mem` below makes explicit);
* `dtype_coerce o` — `numpy.dtype(o)`: `some` of the resulting concrete dtype,
  or `none` when the constructor raises;
* `py_repr o` — Python `repr(o)`;
* `annotated_importable` — whether `import_module_typing_any_attr` finds
  `typing.Annotated` (it raises `BeartypeDecorHintNonPepNumPyException`
  otherwise). -/
structure NumpyEnv (Obj Dtype : Type) where
  sign_is_numpy_array : Obj → Bool
  pep_args : Obj → List Obj
  is_object_hashable : Obj → Bool
  dtype_abc_mem : Obj → Bool
  dtype_coerce : Obj → Option Dtype
  py_repr : Obj → String
  annotated_importable : Bool

/-- Errors a Python expression can raise that the reducer does not itself
construct (here only the `TypeError` from hashing an unhashable object). -/
inductive PyError where
  | typeError
  deriving DecidableEq

/-- Beartype validator expressions built by the reducer
(`beartype.vale.IsAttr`, `IsEqual`, `IsSubclass` subscriptions). -/
inductive BeartypeVale (Obj Dtype : Type) where
  | IsSubclass (cls : Obj)
  | IsEqual (d : Dtype)
  | IsAttr (attr_name : String) (sub : BeartypeVale Obj Dtype)
  deriving DecidableEq

/-- Result of a successful reduction: the hint
`typing.Annotated[numpy.ndarray, hint_validator]` where the validator's
`get_repr` attribute has been set to `repr(hint)` (the `ndarray` first
argument is the same fixed class in every result and is left implicit). -/
structure AnnotatedNdarray (Obj Dtype : Type) where
  validator : BeartypeVale Obj Dtype
  get_repr : String
  deriving DecidableEq

/-- The ways `reduce_hint_numpy_ndarray` can fail: the
`BeartypeDecorHintNonPepNumPyException` raised when `typing.Annotated` is
unimportable, the same exception type raised with a formatted message, or an
uncaught foreign exception propagating through. -/
inductive NumpyReduceError where
  | annotatedUnimportable
  | beartype (message : String)
  | raised (e : PyError)
  deriving DecidableEq

/-- Python `frozenset` membership `x in NUMPY_DTYPE_TYPE_ABCS`: hashes `x`,
raising `TypeError` when `x` is unhashable. -/
def frozenset_mem {Obj Dtype : Type} (env : NumpyEnv Obj Dtype) (x : Obj) :
    Except PyError Bool :=
  if env.is_object_hashable x then .ok (env.dtype_abc_mem x)
  else .error .typeError

/-- The guarded conjunction of the source,
`is_object_hashable(hint_dtype_like) and hint_dtype_like in
NUMPY_DTYPE_TYPE_ABCS`: Python `and` short-circuits, so the membership test
(and its potential `TypeError`) is evaluated only for hashable operands. -/
def dtype_like_is_abc {Obj Dtype : Type} (env : NumpyEnv Obj Dtype)
    (hint_dtype_like : Obj) : Except PyError Bool :=
  if env.is_object_hashable hint_dtype_like then
    frozenset_mem env hint_dtype_like
  else
    .ok false

/-- The `else` branch of the reduction: attempt `dtype(hint_dtype_like)`;
on success build `IsAttr['dtype', IsEqual[hint_dtype]]`, on failure raise
`BeartypeDecorHintNonPepNumPyException` with the hint-and-specifier message
(the foreign exception is caught, never propagated). -/
def numpy_coerce_branch {Obj Dtype : Type} (env : NumpyEnv Obj Dtype)
    (hint hint_dtype_like : Obj) (hint_label : String) :
    Except NumpyReduceError (AnnotatedNdarray Obj Dtype) :=
  match env.dtype_coerce hint_dtype_like with
  | some hint_dtype =>
      .ok { validator := .IsAttr "dtype" (.IsEqual hint_dtype),
            get_repr := env.py_repr hint }
  | none =>
      .error (.beartype (hint_label ++ " NumPy array type hint " ++
        env.py_repr hint ++ " data type " ++ env.py_repr hint_dtype_like ++
        " invalid (i.e., neither data type nor coercible to data type)."))

/-- The `REDUCTION` section of `reduce_hint_numpy_ndarray` (everything after
the arity validation): dispatch on the guarded abstract-base-class test, then
build either the subclass-relation validator or the dtype-equality
validator. -/
def numpy_dtype_reduction {Obj Dtype : Type} (env : NumpyEnv Obj Dtype)
    (hint hint_dtype_like : Obj) (hint_label : String) :
    Except NumpyReduceError (AnnotatedNdarray Obj Dtype) :=
  match dtype_like_is_abc env hint_dtype_like with
  | .error e => .error (.raised e)
  | .ok true =>
      .ok { validator :=
              .IsAttr "dtype" (.IsAttr "type" (.IsSubclass hint_dtype_like)),
            get_repr := env.py_repr hint }
  | .ok false => numpy_coerce_branch env hint hint_dtype_like hint_label

/-- Function `reduce_hint_numpy_ndarray`: reduce a PEP-noncompliant typed
NumPy array hint to a beartype validator annotating `numpy.ndarray`.
Validation order follows the source: import `typing.Annotated`, check the
hint's sign, check the hint is subscripted by exactly two arguments, check
the data-type subhint (the second argument) is subscripted by exactly one
argument, then reduce. -/
def reduce_hint_numpy_ndarray {Obj Dtype : Type} (env : NumpyEnv Obj Dtype)
    (hint : Obj) (hint_label : String) :
    Except NumpyReduceError (AnnotatedNdarray Obj Dtype) :=
  if env.annotated_importable = false then
    .error .annotatedUnimportable
  else if env.sign_is_numpy_array hint = false then
    .error (.beartype (hint_label ++ " type hint " ++ env.py_repr hint ++
      " not NumPy array type hint (i.e., \"numpy.typing.NDArray\" instance)."))
  else
    match env.pep_args hint with
    | [_, hint_dtype_subhint] =>
        match env.pep_args hint_dtype_subhint with
        | [hint_dtype_like] =>
            numpy_dtype_reduction env hint hint_dtype_like hint_label
        | _ =>
            .error (.beartype (hint_label ++ " NumPy array type hint " ++
              env.py_repr hint ++ " data type subhint " ++
              env.py_repr hint_dtype_subhint ++
              " not subscripted by exactly one argument."))
    | _ =>
        .error (.beartype (hint_label ++ " NumPy array type hint " ++
          env.py_repr hint ++ " not subscripted by exactly two arguments."))

/-! ## Claim theorems -/

/-- Claim C1, evaluating the code at the failing input: the localization code
emitted for a positional-or-keyword parameter (here named `x` at signature
index 0) opens the subscript `args[` without ever closing it — the emitted
snippet contains one `[` character and zero `]` characters (and its only
string literal, the quoted parameter name, contains no bracket) — so the
synthesized wrapper source cannot parse as Python, and no binding of the root
pith by positional index, keyword name, or sentinel takes place. -/
theorem param_code_positional_or_keyword_bracket_unbalanced :
    (param_code_get_positional_or_keyword "x" 0).data.count '[' = 1 ∧
    (param_code_get_positional_or_keyword "x" 0).data.count ']' = 0 := by
  decide

/-- Claim C2, counterexample: the plain-class type-check snippet passes
exactly three keyword arguments to the violation raiser — its text contains
exactly three `=` characters, one in each of `func=`, `param_or_return_name=`
and `param_or_return_value=` — and no argument carrying the violated hint
(no `hint=` keyword occurs).  The claim that the snippet passes all four
fields to the violation constructor is therefore false. -/
theorem check_nonpep_type_passes_three_fields_not_four :
    PEP_CODE_CHECK_NONPEP_TYPE.data.count '=' = 3 ∧
    strHasSub "func=" PEP_CODE_CHECK_NONPEP_TYPE = true ∧
    strHasSub "param_or_return_name=" PEP_CODE_CHECK_NONPEP_TYPE = true ∧
    strHasSub "param_or_return_value=" PEP_CODE_CHECK_NONPEP_TYPE = true ∧
    strHasSub "hint=" PEP_CODE_CHECK_NONPEP_TYPE = false := by
  decide

/-- Claim C2, amended: every failing plain-class branch raises through
`__beartype_raise_pep_call_exception`, passing three of the four violation
fields explicitly — the callable (`func=__beartype_func`), the
parameter-or-return label (`param_or_return_name=` bound to the root-pith
name placeholder), and the offending value (`param_or_return_value=` bound to
the root pith) — while the violated hint is not passed and must be recovered
by the raiser from the callable and the label. -/
theorem check_nonpep_type_passes_func_name_value :
    strHasSub "raise __beartype_raise_pep_call_exception("
      PEP_CODE_CHECK_NONPEP_TYPE = true ∧
    strHasSub "func=__beartype_func," PEP_CODE_CHECK_NONPEP_TYPE = true ∧
    strHasSub ("param_or_return_name=" ++ PEP_CODE_PITH_ROOT_NAME_PLACEHOLDER)
      PEP_CODE_CHECK_NONPEP_TYPE = true ∧
    strHasSub ("param_or_return_value=" ++ PEP_CODE_PITH_ROOT_EXPR)
      PEP_CODE_CHECK_NONPEP_TYPE = true := by
  decide

/-- Claim C6: for every parameter whose kind is not positional-or-keyword,
keyword-only, or variadic-positional, `pep_code_check_param` raises a
`BeartypeDecorHintPepException` whose message embeds the human-readable label
naming the parameter, and returns no code — decoration aborts rather than
silently skipping the parameter. -/
theorem pep_code_check_param_unsupported_kind (hint_label : String)
    (kind : ParameterKind) (arg_name : String) (arg_index : Nat)
    (param_code_check : String)
    (h1 : kind ≠ ParameterKind.POSITIONAL_OR_KEYWORD)
    (h2 : kind ≠ ParameterKind.KEYWORD_ONLY)
    (h3 : kind ≠ ParameterKind.VAR_POSITIONAL) :
    pep_code_check_param hint_label kind arg_name arg_index param_code_check =
      Except.error ⟨hint_label ++ " kind " ++ parameter_kind_repr kind ++
        " unsupported."⟩ ∧
    strInfix hint_label
      (hint_label ++ " kind " ++ parameter_kind_repr kind ++
        " unsupported.") := by
  constructor
  · cases kind
    · rfl
    · exact absurd rfl h1
    · exact absurd rfl h3
    · exact absurd rfl h2
    · rfl
  · exact ⟨[], (" kind " ++ parameter_kind_repr kind ++ " unsupported.").data,
      by simp [strInfix, List.append_assoc]⟩

/-- Witness for the unsupported-kind theorem: a positional-only parameter
named `x` at index 0 aborts decoration with the label-bearing message. -/
theorem pep_code_check_param_unsupported_kind_witness :
    pep_code_check_param "@beartyped f() parameter x"
        ParameterKind.POSITIONAL_ONLY "x" 0 "" =
      Except.error ⟨"@beartyped f() parameter x" ++ " kind " ++
        parameter_kind_repr ParameterKind.POSITIONAL_ONLY ++
        " unsupported."⟩ ∧
    strInfix "@beartyped f() parameter x"
      ("@beartyped f() parameter x" ++ " kind " ++
        parameter_kind_repr ParameterKind.POSITIONAL_ONLY ++
        " unsupported.") :=
  pep_code_check_param_unsupported_kind "@beartyped f() parameter x"
    ParameterKind.POSITIONAL_ONLY "x" 0 ""
    (by decide) (by decide) (by decide)

/-- The textual marker of a call to the decorated callable inside generated
wrapper code: the callable's local alias followed by an opening parenthesis. -/
def PEP_CODE_FUNC_CALL : String := "__beartype_func("

/-- Claim C7: the return-value code is exactly the call-and-localize snippet,
then the compiled checking fragment, then the return snippet; provided the
checking fragment itself never calls the decorated callable, the assembled
code contains exactly one occurrence of a call to `__beartype_func`, starts
by binding the call's result to the root pith variable, and ends by returning
that same variable unchanged. -/
theorem pep_code_check_return_structure (return_code_check : String)
    (hf : countOcc PEP_CODE_FUNC_CALL.data return_code_check.data = 0) :
    pep_code_check_return return_code_check =
      PEP_CODE_GET_RETURN ++ return_code_check ++ PEP_CODE_RETURN_CHECKED ∧
    countOcc PEP_CODE_FUNC_CALL.data
      (pep_code_check_return return_code_check).data = 1 ∧
    ("\n    " ++ PEP_CODE_PITH_ROOT_EXPR ++
      " = __beartype_func(*args, **kwargs)\n").data <+:
      (pep_code_check_return return_code_check).data ∧
    ("\n    return " ++ PEP_CODE_PITH_ROOT_EXPR ++ "\n").data <:+
      (pep_code_check_return return_code_check).data := by
  have hdata : (pep_code_check_return return_code_check).data =
      PEP_CODE_GET_RETURN.data ++
        (return_code_check.data ++ PEP_CODE_RETURN_CHECKED.data) := by
    simp [pep_code_check_return, List.append_assoc]
  refine ⟨rfl, ?_, ?_, ?_⟩
  · rw [hdata]
    rw [countOcc_append_of_noStraddle _ _ _ (by decide)]
    rw [countOcc_append_of_head_notMem _ _ _ '\n' (by decide) (by decide)]
    rw [hf]
    decide
  · have h1 : ("\n    " ++ PEP_CODE_PITH_ROOT_EXPR ++
        " = __beartype_func(*args, **kwargs)\n").data.isPrefixOf
        PEP_CODE_GET_RETURN.data = true := by decide
    rw [ List.isPrefixOf_iff_prefix] at h1
    have h2 : PEP_CODE_GET_RETURN.data <+:
        (pep_code_check_return return_code_check).data := by
      rw [hdata]
      exact List.prefix_append _ _
    exact h1.trans h2
  · have h1 : PEP_CODE_RETURN_CHECKED.data =
        "\n    )".data ++ ("\n    return " ++ PEP_CODE_PITH_ROOT_EXPR ++
          "\n").data := by decide
    have h2 : ("\n    return " ++ PEP_CODE_PITH_ROOT_EXPR ++ "\n").data <:+
        PEP_CODE_RETURN_CHECKED.data := by
      rw [h1]
      exact List.suffix_append _ _
    have h3 : PEP_CODE_RETURN_CHECKED.data <:+
        (pep_code_check_return return_code_check).data := by
      have hdata2 : (pep_code_check_return return_code_check).data =
          (PEP_CODE_GET_RETURN.data ++ return_code_check.data) ++
            PEP_CODE_RETURN_CHECKED.data := by
        simp [pep_code_check_return]
      rw [hdata2]
      exact List.suffix_append _ _
    exact h2.trans h3

/-- Witness for the return-code theorem at a concrete checking fragment (the
plain-class check snippet, which references `__beartype_func` only as a
keyword argument, never calling it). -/
theorem pep_code_check_return_structure_witness :
    pep_code_check_return PEP_CODE_CHECK_NONPEP_TYPE =
      PEP_CODE_GET_RETURN ++ PEP_CODE_CHECK_NONPEP_TYPE ++
        PEP_CODE_RETURN_CHECKED ∧
    countOcc PEP_CODE_FUNC_CALL.data
      (pep_code_check_return PEP_CODE_CHECK_NONPEP_TYPE).data = 1 ∧
    ("\n    " ++ PEP_CODE_PITH_ROOT_EXPR ++
      " = __beartype_func(*args, **kwargs)\n").data <+:
      (pep_code_check_return PEP_CODE_CHECK_NONPEP_TYPE).data ∧
    ("\n    return " ++ PEP_CODE_PITH_ROOT_EXPR ++ "\n").data <:+
      (pep_code_check_return PEP_CODE_CHECK_NONPEP_TYPE).data :=
  pep_code_check_return_structure PEP_CODE_CHECK_NONPEP_TYPE (by decide)

/-- Claim C8: for every keyword-only parameter named `name`, the generated
wrapper runs the type check if and only if `name` is among the keys of the
keyword-argument bundle — absence is detected by identity comparison of the
localized pith with the private sentinel (the snippet guards with
`if __beartype_pith_root is not __beartypistry:`), so an explicitly passed
value localizes to `some v` whatever `v` is (falsy values included) and is
always checked, never confusable with "not supplied". -/
theorem keyword_only_checked_iff_passed {V : Type}
    (kwargs : List (String × V)) (name : String) :
    (keyword_only_check_runs kwargs name = true ↔
      name ∈ kwargs.map Prod.fst) ∧
    (∀ v : V, kwargs_get_or_sentinel kwargs name = some v →
      keyword_only_check_runs kwargs name = true) ∧
    strInfix ("if " ++ PEP_CODE_PITH_ROOT_EXPR ++ " is not __beartypistry:")
      (param_code_get_keyword_only name) := by
  refine ⟨?_, ?_, ?_⟩
  · exact lookup_isSome_iff_mem_keys kwargs name
  · intro v h
    unfold keyword_only_check_runs
    rw [h]
    rfl
  · exact ⟨("\n    " ++ PEP_CODE_PITH_ROOT_EXPR ++ " = kwargs.get(" ++
        py_str_repr name ++ ", __beartypistry)\n    ").data, "\n".data,
      by simp [strInfix, param_code_get_keyword_only, List.append_assoc]⟩

/-- Witness for the keyword-only theorem: with keyword bundle `{"k": 0}`,
lookup of `"k"` succeeds and the check runs. -/
theorem keyword_only_checked_iff_passed_witness :
    (keyword_only_check_runs [("k", (0 : Nat))] "k" = true ↔
      "k" ∈ [("k", (0 : Nat))].map Prod.fst) ∧
    (∀ v : Nat, kwargs_get_or_sentinel [("k", (0 : Nat))] "k" = some v →
      keyword_only_check_runs [("k", (0 : Nat))] "k" = true) ∧
    strInfix ("if " ++ PEP_CODE_PITH_ROOT_EXPR ++ " is not __beartypistry:")
      (param_code_get_keyword_only "k") :=
  keyword_only_checked_iff_passed [("k", (0 : Nat))] "k"

/-- Claim C9: `is_hint_pep589` returns `True` exactly for classes subclassing
`dict` that define `__annotations__` and — whenever the interpreter is not
exactly Python 3.8 — both `__required_keys__` and `__optional_keys__`; in
particular it returns `False` for every non-class object and every non-`dict`
class, and its verdict consults no other property of the object (so a
user-defined `dict` subclass defining these attributes passes even if it
never subclassed `TypedDict`). -/
theorem is_hint_pep589_iff {Obj : Type} (env : Pep589Env Obj) (hint : Obj) :
    (is_hint_pep589 env hint = true ↔
      (env.is_type hint = true ∧ env.issubclass_dict hint = true ∧
        env.has_annotations hint = true ∧
        (env.IS_PYTHON_3_8 = false →
          env.has_required_keys hint = true ∧
          env.has_optional_keys hint = true))) ∧
    (env.is_type hint = false → is_hint_pep589 env hint = false) ∧
    (env.issubclass_dict hint = false → is_hint_pep589 env hint = false) := by
  unfold is_hint_pep589
  refine ⟨?_, ?_, ?_⟩
  · cases h1 : env.is_type hint <;> cases h2 : env.issubclass_dict hint <;>
      cases h3 : env.IS_PYTHON_3_8 <;> simp_all
  · intro h1
    simp [h1]
  · intro h2
    simp [h2]

/-- Witness for the typed-dictionary tester theorem: a sample environment in
which the tested object is a `dict` subclass defining all three dunder
attributes on a non-3.8 interpreter. -/
theorem is_hint_pep589_iff_witness :
    (is_hint_pep589
        { is_type := fun _ => true, issubclass_dict := fun _ => true,
          has_annotations := fun _ => true,
          has_required_keys := fun _ => true,
          has_optional_keys := fun _ => true,
          IS_PYTHON_3_8 := false } (0 : Nat) = true ↔
      ((true : Bool) = true ∧ (true : Bool) = true ∧ (true : Bool) = true ∧
        ((false : Bool) = false →
          (true : Bool) = true ∧ (true : Bool) = true))) ∧
    ((true : Bool) = false →
      is_hint_pep589
        { is_type := fun _ => true, issubclass_dict := fun _ => true,
          has_annotations := fun _ => true,
          has_required_keys := fun _ => true,
          has_optional_keys := fun _ => true,
          IS_PYTHON_3_8 := false } (0 : Nat) = false) ∧
    ((true : Bool) = false →
      is_hint_pep589
        { is_type := fun _ => true, issubclass_dict := fun _ => true,
          has_annotations := fun _ => true,
          has_required_keys := fun _ => true,
          has_optional_keys := fun _ => true,
          IS_PYTHON_3_8 := false } (0 : Nat) = false) :=
  is_hint_pep589_iff
    { is_type := fun _ => true, issubclass_dict := fun _ => true,
      has_annotations := fun _ => true, has_required_keys := fun _ => true,
      has_optional_keys := fun _ => true, IS_PYTHON_3_8 := false } (0 : Nat)

/-- Claim C3: for every well-formed typed NumPy array hint (recognized sign,
exactly two sub-hints, data-type subhint singly subscripted by specifier
`d`), `reduce_hint_numpy_ndarray` returns the Annotated hint over the ndarray
class whose validator is the subclass-relationship check
`IsAttr['dtype', IsAttr['type', IsSubclass[d]]]` when `d` is hashable and a
member of the frozen set of NumPy scalar abstract base classes, and otherwise
the equality check `IsAttr['dtype', IsEqual[dt]]` against the concrete dtype
`dt` obtained by coercing `d` (when that coercion succeeds); in both cases
the validator's `get_repr` is set to the hint's `repr`. -/
theorem reduce_hint_numpy_ndarray_wellformed {Obj Dtype : Type}
    (env : NumpyEnv Obj Dtype) (hint elem_subhint dtype_subhint d : Obj)
    (hint_label : String)
    (himp : env.annotated_importable = true)
    (hsign : env.sign_is_numpy_array hint = true)
    (hargs : env.pep_args hint = [elem_subhint, dtype_subhint])
    (hdargs : env.pep_args dtype_subhint = [d]) :
    (env.is_object_hashable d = true → env.dtype_abc_mem d = true →
      reduce_hint_numpy_ndarray env hint hint_label =
        Except.ok ⟨BeartypeVale.IsAttr "dtype"
          (BeartypeVale.IsAttr "type" (BeartypeVale.IsSubclass d)),
          env.py_repr hint⟩) ∧
    (¬(env.is_object_hashable d = true ∧ env.dtype_abc_mem d = true) →
      ∀ dt : Dtype, env.dtype_coerce d = some dt →
        reduce_hint_numpy_ndarray env hint hint_label =
          Except.ok ⟨BeartypeVale.IsAttr "dtype" (BeartypeVale.IsEqual dt),
            env.py_repr hint⟩) := by
  constructor
  · intro hh hm
    simp only [reduce_hint_numpy_ndarray, himp, hsign, hargs, hdargs,
      numpy_dtype_reduction, dtype_like_is_abc, frozenset_mem, hh, hm]
    simp
  · intro hno dt hdt
    have hcond : dtype_like_is_abc env d = Except.ok false := by
      unfold dtype_like_is_abc frozenset_mem
      cases hh : env.is_object_hashable d
      · simp [hh]
      · have hm : env.dtype_abc_mem d = false := by
          cases hm2 : env.dtype_abc_mem d
          · rfl
          · exact absurd ⟨hh, hm2⟩ hno
        simp [hh, hm]
    simp only [reduce_hint_numpy_ndarray, himp, hsign, hargs, hdargs,
      numpy_dtype_reduction, hcond, numpy_coerce_branch, hdt]
    simp

/-- Concrete sample environment over natural-number object codes used by the
witnesses below.  Hints 0, 10, 20, 30, 40, 50 carry the NumPy-array sign and
are wired to the different dtype-specifier situations: code 3 is a hashable
scalar-ABC member, 13 a coercible non-ABC specifier, 23 a non-coercible
specifier, 33 an unhashable specifier; hint 40 has the wrong subscript arity
and hint 50 a data-type subhint with the wrong arity. -/
def numpySampleEnv : NumpyEnv Nat Nat where
  sign_is_numpy_array := fun o =>
    decide (o = 0 ∨ o = 10 ∨ o = 20 ∨ o = 30 ∨ o = 40 ∨ o = 50)
  pep_args := fun o =>
    if o = 0 then [1, 2]
    else if o = 2 then [3]
    else if o = 10 then [1, 12]
    else if o = 12 then [13]
    else if o = 20 then [1, 22]
    else if o = 22 then [23]
    else if o = 30 then [1, 32]
    else if o = 32 then [33]
    else if o = 40 then [1]
    else if o = 50 then [1, 52]
    else []
  is_object_hashable := fun o => decide (o ≠ 33)
  dtype_abc_mem := fun o => decide (o = 3)
  dtype_coerce := fun o => if o = 23 then none else some (o + 100)
  py_repr := fun o => "obj" ++ toString o
  annotated_importable := true

/-- Witness for the well-formed-reduction theorem: hint 0 of the sample
environment carries the ABC specifier 3 and reduces to the
subclass-relationship validator. -/
theorem reduce_hint_numpy_ndarray_wellformed_witness :
    (numpySampleEnv.is_object_hashable 3 = true →
      numpySampleEnv.dtype_abc_mem 3 = true →
      reduce_hint_numpy_ndarray numpySampleEnv 0 "Annotated" =
        Except.ok ⟨BeartypeVale.IsAttr "dtype"
          (BeartypeVale.IsAttr "type" (BeartypeVale.IsSubclass 3)),
          numpySampleEnv.py_repr 0⟩) ∧
    (¬(numpySampleEnv.is_object_hashable 3 = true ∧
        numpySampleEnv.dtype_abc_mem 3 = true) →
      ∀ dt : Nat, numpySampleEnv.dtype_coerce 3 = some dt →
        reduce_hint_numpy_ndarray numpySampleEnv 0 "Annotated" =
          Except.ok ⟨BeartypeVale.IsAttr "dtype" (BeartypeVale.IsEqual dt),
            numpySampleEnv.py_repr 0⟩) :=
  reduce_hint_numpy_ndarray_wellformed numpySampleEnv 0 1 2 3 "Annotated"
    (by decide) (by decide) (by decide) (by decide)

/-- Claim C4: when the data-type specifier of a well-formed typed NumPy array
hint is neither a (hashable) recognized scalar ABC nor coercible into a
concrete dtype, `reduce_hint_numpy_ndarray` raises
`BeartypeDecorHintNonPepNumPyException` — not the foreign library's raw
exception — with a message embedding the `repr` of both the hint and the
invalid specifier. -/
theorem reduce_hint_numpy_ndarray_coerce_failure {Obj Dtype : Type}
    (env : NumpyEnv Obj Dtype) (hint elem_subhint dtype_subhint d : Obj)
    (hint_label : String)
    (himp : env.annotated_importable = true)
    (hsign : env.sign_is_numpy_array hint = true)
    (hargs : env.pep_args hint = [elem_subhint, dtype_subhint])
    (hdargs : env.pep_args dtype_subhint = [d])
    (hno : ¬(env.is_object_hashable d = true ∧ env.dtype_abc_mem d = true))
    (hco : env.dtype_coerce d = none) :
    ∃ msg : String,
      reduce_hint_numpy_ndarray env hint hint_label =
        Except.error (NumpyReduceError.beartype msg) ∧
      strInfix (env.py_repr hint) msg ∧
      strInfix (env.py_repr d) msg := by
  refine ⟨hint_label ++ " NumPy array type hint " ++ env.py_repr hint ++
    " data type " ++ env.py_repr d ++
    " invalid (i.e., neither data type nor coercible to data type).",
    ?_, ?_, ?_⟩
  · have hcond : dtype_like_is_abc env d = Except.ok false := by
      unfold dtype_like_is_abc frozenset_mem
      cases hh : env.is_object_hashable d
      · simp [hh]
      · have hm : env.dtype_abc_mem d = false := by
          cases hm2 : env.dtype_abc_mem d
          · rfl
          · exact absurd ⟨hh, hm2⟩ hno
        simp [hh, hm]
    simp only [reduce_hint_numpy_ndarray, himp, hsign, hargs, hdargs,
      numpy_dtype_reduction, hcond, numpy_coerce_branch, hco]
    simp
  · exact ⟨(hint_label ++ " NumPy array type hint ").data,
      (" data type " ++ env.py_repr d ++
        " invalid (i.e., neither data type nor coercible to data type).").data,
      by simp [strInfix, List.append_assoc]⟩
  · exact ⟨(hint_label ++ " NumPy array type hint " ++ env.py_repr hint ++
        " data type ").data,
      " invalid (i.e., neither data type nor coercible to data type).".data,
      by simp [strInfix, List.append_assoc]⟩

/-- Witness for the coercion-failure theorem: hint 20 of the sample
environment carries specifier 23, which is hashable but no ABC and not
coercible, so reduction fails with the descriptive beartype exception. -/
theorem reduce_hint_numpy_ndarray_coerce_failure_witness :
    ∃ msg : String,
      reduce_hint_numpy_ndarray numpySampleEnv 20 "Annotated" =
        Except.error (NumpyReduceError.beartype msg) ∧
      strInfix (numpySampleEnv.py_repr 20) msg ∧
      strInfix (numpySampleEnv.py_repr 23) msg :=
  reduce_hint_numpy_ndarray_coerce_failure numpySampleEnv 20 1 22 23
    "Annotated" (by decide) (by decide) (by decide) (by decide)
    (by decide) (by decide)

/-- Claim C5: for a recognized typed NumPy array hint,
`reduce_hint_numpy_ndarray` raises a decoration-time exception whose message
embeds the hint's `repr` whenever the hint is not subscripted by exactly two
arguments, or its second (data-type) subhint is not subscripted by exactly
one argument; it proceeds to the reduction phase exactly when both arity
conditions hold. -/
theorem reduce_hint_numpy_ndarray_arity {Obj Dtype : Type}
    (env : NumpyEnv Obj Dtype) (hint : Obj) (hint_label : String)
    (himp : env.annotated_importable = true)
    (hsign : env.sign_is_numpy_array hint = true) :
    ((env.pep_args hint).length ≠ 2 →
      ∃ msg : String,
        reduce_hint_numpy_ndarray env hint hint_label =
          Except.error (NumpyReduceError.beartype msg) ∧
        strInfix (env.py_repr hint) msg) ∧
    (∀ e dsub : Obj, env.pep_args hint = [e, dsub] →
      (env.pep_args dsub).length ≠ 1 →
      ∃ msg : String,
        reduce_hint_numpy_ndarray env hint hint_label =
          Except.error (NumpyReduceError.beartype msg) ∧
        strInfix (env.py_repr hint) msg ∧
        strInfix (env.py_repr dsub) msg) ∧
    (∀ e dsub d : Obj, env.pep_args hint = [e, dsub] →
      env.pep_args dsub = [d] →
      reduce_hint_numpy_ndarray env hint hint_label =
        numpy_dtype_reduction env hint d hint_label) := by
  refine ⟨?_, ?_, ?_⟩
  · intro hlen
    refine ⟨hint_label ++ " NumPy array type hint " ++ env.py_repr hint ++
      " not subscripted by exactly two arguments.", ?_, ?_⟩
    · rcases hl : env.pep_args hint with _ | ⟨a, _ | ⟨b, _ | ⟨c, rest⟩⟩⟩
      · simp only [reduce_hint_numpy_ndarray, himp, hsign, hl]
        simp
      · simp only [reduce_hint_numpy_ndarray, himp, hsign, hl]
        simp
      · rw [hl] at hlen
        simp at hlen
      · simp only [reduce_hint_numpy_ndarray, himp, hsign, hl]
        simp
    · exact ⟨(hint_label ++ " NumPy array type hint ").data,
        " not subscripted by exactly two arguments.".data,
        by simp [strInfix, List.append_assoc]⟩
  · intro e dsub heq hlen1
    refine ⟨hint_label ++ " NumPy array type hint " ++ env.py_repr hint ++
      " data type subhint " ++ env.py_repr dsub ++
      " not subscripted by exactly one argument.", ?_, ?_, ?_⟩
    · rcases hl : env.pep_args dsub with _ | ⟨a, _ | ⟨b, rest⟩⟩
      · simp only [reduce_hint_numpy_ndarray, himp, hsign, heq, hl]
        simp
      · rw [hl] at hlen1
        simp at hlen1
      · simp only [reduce_hint_numpy_ndarray, himp, hsign, heq, hl]
        simp
    · exact ⟨(hint_label ++ " NumPy array type hint ").data,
        (" data type subhint " ++ env.py_repr dsub ++
          " not subscripted by exactly one argument.").data,
        by simp [strInfix, List.append_assoc]⟩
    · exact ⟨(hint_label ++ " NumPy array type hint " ++ env.py_repr hint ++
          " data type subhint ").data,
        " not subscripted by exactly one argument.".data,
        by simp [strInfix, List.append_assoc]⟩
  · intro e dsub d heq hdeq
    simp only [reduce_hint_numpy_ndarray, himp, hsign, heq, hdeq]
    simp

/-- Witness for the arity theorem: hint 40 of the sample environment is
subscripted by only one argument and is rejected with the hint-bearing
message. -/
theorem reduce_hint_numpy_ndarray_arity_witness :
    ((numpySampleEnv.pep_args 40).length ≠ 2 →
      ∃ msg : String,
        reduce_hint_numpy_ndarray numpySampleEnv 40 "Annotated" =
          Except.error (NumpyReduceError.beartype msg) ∧
        strInfix (numpySampleEnv.py_repr 40) msg) ∧
    (∀ e dsub : Nat, numpySampleEnv.pep_args 40 = [e, dsub] →
      (numpySampleEnv.pep_args dsub).length ≠ 1 →
      ∃ msg : String,
        reduce_hint_numpy_ndarray numpySampleEnv 40 "Annotated" =
          Except.error (NumpyReduceError.beartype msg) ∧
        strInfix (numpySampleEnv.py_repr 40) msg ∧
        strInfix (numpySampleEnv.py_repr dsub) msg) ∧
    (∀ e dsub d : Nat, numpySampleEnv.pep_args 40 = [e, dsub] →
      numpySampleEnv.pep_args dsub = [d] →
      reduce_hint_numpy_ndarray numpySampleEnv 40 "Annotated" =
        numpy_dtype_reduction numpySampleEnv 40 d "Annotated") :=
  reduce_hint_numpy_ndarray_arity numpySampleEnv 40 "Annotated"
    (by decide) (by decide)

/-- Claim C10: for every well-formed typed NumPy array hint whose data-type
specifier is unhashable, the bare frozen-set membership test would raise
`TypeError`, but `reduce_hint_numpy_ndarray` never propagates such an error:
the `is_object_hashable` guard short-circuits the conjunction and the
unhashable specifier takes the dtype-coercion branch instead. -/
theorem reduce_hint_numpy_ndarray_unhashable {Obj Dtype : Type}
    (env : NumpyEnv Obj Dtype) (hint elem_subhint dtype_subhint d : Obj)
    (hint_label : String)
    (himp : env.annotated_importable = true)
    (hsign : env.sign_is_numpy_array hint = true)
    (hargs : env.pep_args hint = [elem_subhint, dtype_subhint])
    (hdargs : env.pep_args dtype_subhint = [d])
    (hunhash : env.is_object_hashable d = false) :
    frozenset_mem env d = Except.error PyError.typeError ∧
    reduce_hint_numpy_ndarray env hint hint_label =
      numpy_coerce_branch env hint d hint_label ∧
    (∀ e : PyError, reduce_hint_numpy_ndarray env hint hint_label ≠
      Except.error (NumpyReduceError.raised e)) := by
  have hred : reduce_hint_numpy_ndarray env hint hint_label =
      numpy_coerce_branch env hint d hint_label := by
    simp only [reduce_hint_numpy_ndarray, himp, hsign, hargs, hdargs,
      numpy_dtype_reduction, dtype_like_is_abc, hunhash]
    simp
  refine ⟨?_, hred, ?_⟩
  · simp [frozenset_mem, hunhash]
  · intro e
    rw [hred]
    cases hdc : env.dtype_coerce d <;> simp [numpy_coerce_branch, hdc]

/-- Witness for the unhashable-specifier theorem: hint 30 of the sample
environment carries the unhashable specifier 33; reduction takes the
coercion branch and raises no `TypeError`. -/
theorem reduce_hint_numpy_ndarray_unhashable_witness :
    frozenset_mem numpySampleEnv 33 = Except.error PyError.typeError ∧
    reduce_hint_numpy_ndarray numpySampleEnv 30 "Annotated" =
      numpy_coerce_branch numpySampleEnv 30 33 "Annotated" ∧
    (∀ e : PyError, reduce_hint_numpy_ndarray numpySampleEnv 30 "Annotated" ≠
      Except.error (NumpyReduceError.raised e)) :=
  reduce_hint_numpy_ndarray_unhashable numpySampleEnv 30 1 32 33 "Annotated"
    (by decide) (by decide) (by decide) (by decide) (by decide)

end Beartype
